import Mathlib

/-!
Verification of the ConspiraLab (Ficha 5) authentication core.

Shallow embedding of:
- `src/middlewares/authMiddleware.js`: the Authentication Gate
  (`exigirAutenticacao`) and the View-Context Enricher
  (`anexarUtilizadorAsViews`);
- `src/config/database.js`: the database connection helper
  (`connectToDatabase`);
- `index.js`: the server startup routine (`startServer`).

The session context and view context are modelled with an explicit
JavaScript value type, so that truthiness checks (`!req.session.userId`)
are embedded exactly as the source performs them.  The credential store
(`User.findById`) is a parameter: a function from the looked-up value to
a lookup result, which may be a found document, a not-found result, or a
raised error.  Store reads and session-context writes are counted
explicitly in the result records, so that frame and effect claims can be
stated.
-/

/-- JavaScript values as they occur in the session context. -/
inductive JsValue where
  | vNull
  | vUndefined
  | vBool (b : Bool)
  | vNum (n : Int)
  | vStr (s : String)
deriving DecidableEq, Repr

/-- JavaScript truthiness, as applied by `!req.session.userId` in the
source: `null`, `undefined`, `false`, `0` and the empty string are falsy. -/
def truthy : JsValue → Bool
  | JsValue.vNull => false
  | JsValue.vUndefined => false
  | JsValue.vBool b => b
  | JsValue.vNum n => decide (n ≠ 0)
  | JsValue.vStr s => decide (s ≠ "")

/-- A MongoDB object identifier, as carried in a user document's `_id`
field; `toString` is the stringification the enricher applies. -/
structure ObjectId where
  oid : String
deriving DecidableEq, Repr

def ObjectId.toString (o : ObjectId) : String := o.oid

/-- A stored user document (`src/models/User.js`).  Besides the schema
fields, `extraFields` stands for any further fields the stored record
may carry, so that claims about the projection ignoring them can be
stated. -/
structure UserDoc where
  mongoId : ObjectId
  displayName : JsValue
  email : JsValue
  role : JsValue
  passwordHash : JsValue
  extraFields : List (String × JsValue)
deriving DecidableEq, Repr

/-- The session context attached to a request (`req.session`): the
identity reference `userId` and the cached `role`.  An absent field is
`JsValue.vUndefined`. -/
structure Session where
  userId : JsValue
  role : JsValue
deriving DecidableEq, Repr

/-- The view context (`res.locals`): `currentUser` is either `none`
(JavaScript `null`, anonymous) or an object, modelled as an ordered list
of field-name/value pairs so that field-level absence can be stated. -/
structure Locals where
  currentUser : Option (List (String × JsValue))
deriving DecidableEq, Repr

/-- Outcome of one `User.findById` call: a document, a not-found result
(`null` in JavaScript), or a raised error. -/
inductive LookupResult where
  | found (u : UserDoc)
  | notFound
  | error (msg : String)
deriving DecidableEq, Repr

/-- What the Authentication Gate does with the request: redirect to a
path, or call `next()`. -/
inductive GateOutcome where
  | redirect (path : String)
  | callNext
deriving DecidableEq, Repr

/-- Full result of running the Authentication Gate on a request:
its outcome together with the session context, the view context, and
counts of credential-store reads and persistence writes it performed. -/
structure GateResult where
  outcome : GateOutcome
  session : Session
  locals : Locals
  storeReads : Nat
  storeWrites : Nat
deriving DecidableEq, Repr

/-- `exigirAutenticacao` (src/middlewares/authMiddleware.js, lines
64-74): if `req.session.userId` is falsy, redirect to `/login`;
otherwise call `next()`.  It reads no store and writes nothing. -/
def exigirAutenticacao (session : Session) (locals : Locals) : GateResult :=
  if truthy session.userId = false then
    { outcome := GateOutcome.redirect "/login"
      session := session
      locals := locals
      storeReads := 0
      storeWrites := 0 }
  else
    { outcome := GateOutcome.callNext
      session := session
      locals := locals
      storeReads := 0
      storeWrites := 0 }

/-- Full result of running the View-Context Enricher on a request:
the (possibly healed) session context, the view context, the number of
`findById` reads, the number of session-field assignments performed by
the stale-reference clearing, and whether `next()` was called. -/
structure EnrichResult where
  session : Session
  locals : Locals
  storeReads : Nat
  sessionWrites : Nat
  calledNext : Bool
deriving DecidableEq, Repr

/-- `anexarUtilizadorAsViews` (src/middlewares/authMiddleware.js, lines
112-149).  Sets `res.locals.currentUser` to `null`; returns early via
`next()` when `req.session.userId` is falsy; otherwise looks the user up.
Not found: clears `req.session.userId` and `req.session.role` (two
session-field assignments) and proceeds.  Found: builds the four-field
safe object.  A raised error is caught, `currentUser` stays `null`, and
`next()` is still called. -/
def anexarUtilizadorAsViews (findById : JsValue → LookupResult)
    (session : Session) (locals : Locals) : EnrichResult :=
  let locals := { locals with currentUser := none }
  if truthy session.userId = false then
    { session := session
      locals := locals
      storeReads := 0
      sessionWrites := 0
      calledNext := true }
  else
    match findById session.userId with
    | LookupResult.notFound =>
        { session := { userId := JsValue.vUndefined, role := JsValue.vUndefined }
          locals := locals
          storeReads := 1
          sessionWrites := 2
          calledNext := true }
    | LookupResult.found u =>
        let safeUser : List (String × JsValue) :=
          [("id", JsValue.vStr u.mongoId.toString),
           ("displayName", u.displayName),
           ("email", u.email),
           ("role", u.role)]
        { session := session
          locals := { locals with currentUser := some safeUser }
          storeReads := 1
          sessionWrites := 0
          calledNext := true }
    | LookupResult.error _ =>
        { session := session
          locals := { locals with currentUser := none }
          storeReads := 1
          sessionWrites := 0
          calledNext := true }

/-- The process environment as read by the connection helper:
`process.env` values are strings, or `none` when unset. -/
structure Env where
  MONGODB_URI : Option String
  MONGODB_DB_NAME : Option String
deriving DecidableEq, Repr

/-- JavaScript truthiness of an environment variable value. -/
def envTruthy : Option String → Bool
  | none => false
  | some s => decide (s ≠ "")

/-- Result of the connection helper: an error thrown to the caller, or a
successful connection. -/
inductive ConnectResult where
  | thrown (msg : String)
  | connected
deriving DecidableEq, Repr

/-- Result of the connection helper together with the number of
`mongoose.connect` attempts it made. -/
structure ConnectOutcome where
  result : ConnectResult
  connectAttempts : Nat
deriving DecidableEq, Repr

/-- `connectToDatabase` (src/config/database.js and the completed version
in the repository guide): if the connection-string environment variable
is falsy, throw before attempting any connection; otherwise compute the
database name (defaulting to "ficha5_conspirações") and attempt to
connect, rethrowing a connection error.  `mongooseConnect` models
`mongoose.connect` as an external oracle taking the URI and the database
name. -/
def connectToDatabase (env : Env)
    (mongooseConnect : String → String → Except String Unit) : ConnectOutcome :=
  if envTruthy env.MONGODB_URI = false then
    { result := ConnectResult.thrown "A Variável de ambiente MONGO_DB não existe."
      connectAttempts := 0 }
  else
    match env.MONGODB_URI with
    | none =>
        { result := ConnectResult.thrown "A Variável de ambiente MONGO_DB não existe."
          connectAttempts := 0 }
    | some uri =>
        let dbName := match env.MONGODB_DB_NAME with
          | some s => if s = "" then "ficha5_conspirações" else s
          | none => "ficha5_conspirações"
        match mongooseConnect uri dbName with
        | Except.ok _ => { result := ConnectResult.connected, connectAttempts := 1 }
        | Except.error e => { result := ConnectResult.thrown e, connectAttempts := 1 }

/-- Outcome of the server startup routine: the server listens, or the
process exits with a code. -/
inductive StartOutcome where
  | listening
  | exitedWithCode (code : Nat)
deriving DecidableEq, Repr

/-- `startServer` (index.js, lines 8-19): awaits `connectToDatabase`;
on a thrown error it logs and calls `process.exit(1)`; otherwise it
starts listening. -/
def startServer (env : Env)
    (mongooseConnect : String → String → Except String Unit) : StartOutcome :=
  match (connectToDatabase env mongooseConnect).result with
  | ConnectResult.thrown _ => StartOutcome.exitedWithCode 1
  | ConnectResult.connected => StartOutcome.listening

/-! ### Concrete fixtures used by witnesses -/

/-- An empty session context (`req.session` with no `userId` and no
cached `role`). -/
def emptySession : Session :=
  { userId := JsValue.vUndefined, role := JsValue.vUndefined }

/-- A fresh view context with no current user. -/
def noLocals : Locals := { currentUser := none }

/-- A stored user record carrying all schema fields, including the
password digest and an extra timestamp field. -/
def anaDoc : UserDoc :=
  { mongoId := { oid := "U1" }
    displayName := JsValue.vStr "Ana"
    email := JsValue.vStr "ana@x.com"
    role := JsValue.vStr "user"
    passwordHash := JsValue.vStr "bcrypt-digest"
    extraFields := [("createdAt", JsValue.vStr "2025-01-01")] }

/-- A credential store holding exactly the record `anaDoc` under the
reference "U1". -/
def sampleStore : JsValue → LookupResult := fun v =>
  if v = JsValue.vStr "U1" then LookupResult.found anaDoc else LookupResult.notFound

/-- A credential store whose every lookup raises an error. -/
def failingStore : JsValue → LookupResult := fun _ =>
  LookupResult.error "connection refused"

/-- A session context referencing the existing record "U1". -/
def u1Session : Session := { userId := JsValue.vStr "U1", role := JsValue.vStr "user" }

/-- A session context carrying a dangling reference "U9". -/
def u9Session : Session := { userId := JsValue.vStr "U9", role := JsValue.vStr "user" }

/-! ### Claims -/

/-- Claim C1: on a session context with no identity reference, the
Authentication Gate redirects to the fixed path "/login", does not call
the next pipeline stage, and performs no store read. -/
theorem C1_gate_redirects_without_identity (session : Session) (locals : Locals)
    (h : session.userId = JsValue.vUndefined) :
    (exigirAutenticacao session locals).outcome = GateOutcome.redirect "/login" ∧
    (exigirAutenticacao session locals).outcome ≠ GateOutcome.callNext ∧
    (exigirAutenticacao session locals).storeReads = 0 := by
  simp [exigirAutenticacao, h, truthy]

/-- Witness for C1: the empty session context on a protected route. -/
theorem C1_gate_redirects_without_identity_witness :
    emptySession.userId = JsValue.vUndefined ∧
    ((exigirAutenticacao emptySession noLocals).outcome = GateOutcome.redirect "/login" ∧
     (exigirAutenticacao emptySession noLocals).outcome ≠ GateOutcome.callNext ∧
     (exigirAutenticacao emptySession noLocals).storeReads = 0) :=
  ⟨rfl, C1_gate_redirects_without_identity emptySession noLocals rfl⟩

/-- Claim C2: on a session context carrying an identity reference, the
Authentication Gate calls next() unconditionally, with no credential
store read — in particular it does not check that the referenced
identity exists (the gate takes no store at all and reads nothing). -/
theorem C2_gate_passes_with_identity (session : Session) (locals : Locals)
    (h : truthy session.userId = true) :
    (exigirAutenticacao session locals).outcome = GateOutcome.callNext ∧
    (exigirAutenticacao session locals).storeReads = 0 := by
  simp [exigirAutenticacao, h]

/-- Witness for C2: a session referencing "U9", an identity that exists
in no store, still passes through. -/
theorem C2_gate_passes_with_identity_witness :
    truthy u9Session.userId = true ∧
    ((exigirAutenticacao u9Session noLocals).outcome = GateOutcome.callNext ∧
     (exigirAutenticacao u9Session noLocals).storeReads = 0) :=
  ⟨by decide, C2_gate_passes_with_identity u9Session noLocals (by decide)⟩

/-- Claim C3: when the session reference resolves to an existing record,
the Enricher sets `res.locals.currentUser` to exactly the four-field
projection (with `id` the stringified `_id`); the output's field names
are exactly id, displayName, email, role, and `passwordHash` is absent,
whatever extra fields the stored record carries. -/
theorem C3_enricher_four_field_projection (findById : JsValue → LookupResult)
    (session : Session) (locals : Locals) (u : UserDoc)
    (h : truthy session.userId = true)
    (hf : findById session.userId = LookupResult.found u) :
    (anexarUtilizadorAsViews findById session locals).locals.currentUser =
      some [("id", JsValue.vStr u.mongoId.toString),
            ("displayName", u.displayName),
            ("email", u.email),
            ("role", u.role)] ∧
    ([("id", JsValue.vStr u.mongoId.toString),
      ("displayName", u.displayName),
      ("email", u.email),
      ("role", u.role)].map Prod.fst = ["id", "displayName", "email", "role"]) ∧
    (List.lookup "passwordHash"
      [("id", JsValue.vStr u.mongoId.toString),
       ("displayName", u.displayName),
       ("email", u.email),
       ("role", u.role)] = none) := by
  refine ⟨?_, by simp, by simp [List.lookup]⟩
  simp [anexarUtilizadorAsViews, h, hf]

/-- Witness for C3: the store holding the record "U1" for Ana, whose
stored document carries a password digest and an extra field. -/
theorem C3_enricher_four_field_projection_witness :
    truthy u1Session.userId = true ∧
    sampleStore u1Session.userId = LookupResult.found anaDoc ∧
    ((anexarUtilizadorAsViews sampleStore u1Session noLocals).locals.currentUser =
      some [("id", JsValue.vStr anaDoc.mongoId.toString),
            ("displayName", anaDoc.displayName),
            ("email", anaDoc.email),
            ("role", anaDoc.role)] ∧
    ([("id", JsValue.vStr anaDoc.mongoId.toString),
      ("displayName", anaDoc.displayName),
      ("email", anaDoc.email),
      ("role", anaDoc.role)].map Prod.fst = ["id", "displayName", "email", "role"]) ∧
    (List.lookup "passwordHash"
      [("id", JsValue.vStr anaDoc.mongoId.toString),
       ("displayName", anaDoc.displayName),
       ("email", anaDoc.email),
       ("role", anaDoc.role)] = none)) :=
  ⟨by decide, by decide,
   C3_enricher_four_field_projection sampleStore u1Session noLocals anaDoc
     (by decide) (by decide)⟩

/-- Truthiness of an absent field reduces to false. -/
@[simp] theorem truthy_vUndefined : truthy JsValue.vUndefined = false := rfl

/-- Claim C4: when the session reference resolves to no user, the
Enricher clears both `userId` and the cached `role` from the session,
leaves `currentUser` null, and a second invocation on the healed session
takes the no-reference path with no further store lookup. -/
theorem C4_enricher_clears_stale_reference (findById : JsValue → LookupResult)
    (session : Session) (locals : Locals)
    (h : truthy session.userId = true)
    (hf : findById session.userId = LookupResult.notFound) :
    ((anexarUtilizadorAsViews findById session locals).session.userId =
        JsValue.vUndefined) ∧
    ((anexarUtilizadorAsViews findById session locals).session.role =
        JsValue.vUndefined) ∧
    ((anexarUtilizadorAsViews findById session locals).locals.currentUser = none) ∧
    ((anexarUtilizadorAsViews findById
        (anexarUtilizadorAsViews findById session locals).session
        (anexarUtilizadorAsViews findById session locals).locals).storeReads = 0) ∧
    ((anexarUtilizadorAsViews findById
        (anexarUtilizadorAsViews findById session locals).session
        (anexarUtilizadorAsViews findById session locals).locals).locals.currentUser
      = none) := by
  simp [anexarUtilizadorAsViews, h, hf]

/-- Witness for C4: the dangling reference "U9" against the store that
only holds "U1". -/
theorem C4_enricher_clears_stale_reference_witness :
    truthy u9Session.userId = true ∧
    sampleStore u9Session.userId = LookupResult.notFound ∧
    (((anexarUtilizadorAsViews sampleStore u9Session noLocals).session.userId =
        JsValue.vUndefined) ∧
    ((anexarUtilizadorAsViews sampleStore u9Session noLocals).session.role =
        JsValue.vUndefined) ∧
    ((anexarUtilizadorAsViews sampleStore u9Session noLocals).locals.currentUser = none) ∧
    ((anexarUtilizadorAsViews sampleStore
        (anexarUtilizadorAsViews sampleStore u9Session noLocals).session
        (anexarUtilizadorAsViews sampleStore u9Session noLocals).locals).storeReads = 0) ∧
    ((anexarUtilizadorAsViews sampleStore
        (anexarUtilizadorAsViews sampleStore u9Session noLocals).session
        (anexarUtilizadorAsViews sampleStore u9Session noLocals).locals).locals.currentUser
      = none)) :=
  ⟨by decide, by decide,
   C4_enricher_clears_stale_reference sampleStore u9Session noLocals
     (by decide) (by decide)⟩

/-- Claim C5: on every input the Enricher calls next() (it never
terminates the pipeline and, being a total function, lets no exception
escape); and when the store lookup raises an error, `currentUser` is
left null. -/
theorem C5_enricher_fail_open (findById : JsValue → LookupResult)
    (session : Session) (locals : Locals) :
    (anexarUtilizadorAsViews findById session locals).calledNext = true ∧
    (∀ msg, findById session.userId = LookupResult.error msg →
      (anexarUtilizadorAsViews findById session locals).locals.currentUser = none) := by
  constructor
  · cases h : truthy session.userId <;>
      cases hf : findById session.userId <;>
      simp [anexarUtilizadorAsViews, h, hf]
  · intro msg hf
    cases h : truthy session.userId <;>
      simp [anexarUtilizadorAsViews, h, hf]

/-- Witness for C5: the store that raises on every lookup, with a
session referencing "U1". -/
theorem C5_enricher_fail_open_witness :
    failingStore u1Session.userId = LookupResult.error "connection refused" ∧
    ((anexarUtilizadorAsViews failingStore u1Session noLocals).calledNext = true ∧
     (anexarUtilizadorAsViews failingStore u1Session noLocals).locals.currentUser = none) :=
  ⟨by decide,
   (C5_enricher_fail_open failingStore u1Session noLocals).1,
   (C5_enricher_fail_open failingStore u1Session noLocals).2 "connection refused" (by decide)⟩

/-- Claim C6: running the Enricher twice in sequence (second run on the
session the first run left behind, same store) yields the same
`currentUser` output; and when the first run resolved to "no identity"
(reference absent, or lookup returned not-found and the reference was
cleared), the second run issues no store read and no session write —
clearing an already-empty reference is a no-op. -/
theorem C6_enricher_idempotent (findById : JsValue → LookupResult)
    (session : Session) (locals : Locals) :
    ((anexarUtilizadorAsViews findById
        (anexarUtilizadorAsViews findById session locals).session
        (anexarUtilizadorAsViews findById session locals).locals).locals.currentUser =
      (anexarUtilizadorAsViews findById session locals).locals.currentUser) ∧
    ((truthy session.userId = false ∨ findById session.userId = LookupResult.notFound) →
      (anexarUtilizadorAsViews findById session locals).locals.currentUser = none ∧
      (anexarUtilizadorAsViews findById
        (anexarUtilizadorAsViews findById session locals).session
        (anexarUtilizadorAsViews findById session locals).locals).storeReads = 0 ∧
      (anexarUtilizadorAsViews findById
        (anexarUtilizadorAsViews findById session locals).session
        (anexarUtilizadorAsViews findById session locals).locals).sessionWrites = 0) := by
  constructor
  · cases h : truthy session.userId
    · simp [anexarUtilizadorAsViews, h]
    · cases hf : findById session.userId <;>
        simp [anexarUtilizadorAsViews, h, hf]
  · rintro (h | hf)
    · simp [anexarUtilizadorAsViews, h]
    · cases h : truthy session.userId
      · simp [anexarUtilizadorAsViews, h]
      · simp [anexarUtilizadorAsViews, h, hf]

/-- Witness for C6: the dangling reference "U9" self-heals on the first
run; the second run reads and writes nothing. -/
theorem C6_enricher_idempotent_witness :
    (truthy u9Session.userId = false ∨
      sampleStore u9Session.userId = LookupResult.notFound) ∧
    (((anexarUtilizadorAsViews sampleStore
        (anexarUtilizadorAsViews sampleStore u9Session noLocals).session
        (anexarUtilizadorAsViews sampleStore u9Session noLocals).locals).locals.currentUser =
      (anexarUtilizadorAsViews sampleStore u9Session noLocals).locals.currentUser) ∧
    ((anexarUtilizadorAsViews sampleStore u9Session noLocals).locals.currentUser = none ∧
      (anexarUtilizadorAsViews sampleStore
        (anexarUtilizadorAsViews sampleStore u9Session noLocals).session
        (anexarUtilizadorAsViews sampleStore u9Session noLocals).locals).storeReads = 0 ∧
      (anexarUtilizadorAsViews sampleStore
        (anexarUtilizadorAsViews sampleStore u9Session noLocals).session
        (anexarUtilizadorAsViews sampleStore u9Session noLocals).locals).sessionWrites = 0)) :=
  ⟨Or.inr (by decide),
   (C6_enricher_idempotent sampleStore u9Session noLocals).1,
   (C6_enricher_idempotent sampleStore u9Session noLocals).2 (Or.inr (by decide))⟩

/-- Claim C7: the Authentication Gate leaves the session context and the
view context unchanged, performs no store reads and no persistence
writes, and its outcome is either a redirect to "/login" (exactly when
the reference is falsy) or a call to next() — never anything else. -/
theorem C7_gate_frame (session : Session) (locals : Locals) :
    (exigirAutenticacao session locals).session = session ∧
    (exigirAutenticacao session locals).locals = locals ∧
    (exigirAutenticacao session locals).storeReads = 0 ∧
    (exigirAutenticacao session locals).storeWrites = 0 ∧
    (truthy session.userId = false →
      (exigirAutenticacao session locals).outcome = GateOutcome.redirect "/login") ∧
    (truthy session.userId = true →
      (exigirAutenticacao session locals).outcome = GateOutcome.callNext) := by
  cases h : truthy session.userId <;> simp [exigirAutenticacao, h]

/-- Witness for C7: the empty session on a protected route. -/
theorem C7_gate_frame_witness :
    ((exigirAutenticacao emptySession noLocals).session = emptySession ∧
    (exigirAutenticacao emptySession noLocals).locals = noLocals ∧
    (exigirAutenticacao emptySession noLocals).storeReads = 0 ∧
    (exigirAutenticacao emptySession noLocals).storeWrites = 0 ∧
    (exigirAutenticacao emptySession noLocals).outcome = GateOutcome.redirect "/login") :=
  ⟨(C7_gate_frame emptySession noLocals).1,
   (C7_gate_frame emptySession noLocals).2.1,
   (C7_gate_frame emptySession noLocals).2.2.1,
   (C7_gate_frame emptySession noLocals).2.2.2.1,
   (C7_gate_frame emptySession noLocals).2.2.2.2.1 (by decide)⟩

/-- Claim C8: when the connection-string environment variable is unset,
the connection helper throws before any connection attempt, and the
startup routine catches the error and exits the process with code 1. -/
theorem C8_missing_config_is_fatal (env : Env)
    (mongooseConnect : String → String → Except String Unit)
    (h : env.MONGODB_URI = none) :
    (connectToDatabase env mongooseConnect).connectAttempts = 0 ∧
    (∃ msg, (connectToDatabase env mongooseConnect).result = ConnectResult.thrown msg) ∧
    startServer env mongooseConnect = StartOutcome.exitedWithCode 1 := by
  refine ⟨?_, ?_, ?_⟩ <;>
    simp [connectToDatabase, startServer, h, envTruthy]

/-- Witness for C8: an environment with no connection string, even over
a mongoose oracle that would always connect successfully. -/
theorem C8_missing_config_is_fatal_witness :
    (Env.mk none none).MONGODB_URI = none ∧
    ((connectToDatabase (Env.mk none none)
        (fun _ _ => Except.ok Unit.unit)).connectAttempts = 0 ∧
     (∃ msg, (connectToDatabase (Env.mk none none)
        (fun _ _ => Except.ok Unit.unit)).result = ConnectResult.thrown msg) ∧
     startServer (Env.mk none none) (fun _ _ => Except.ok Unit.unit) =
       StartOutcome.exitedWithCode 1) :=
  ⟨rfl, C8_missing_config_is_fatal (Env.mk none none)
    (fun _ _ => Except.ok Unit.unit) rfl⟩

/-- Claim C9: when the store lookup raises, the Enricher leaves the
session context untouched — `userId` and `role` keep their prior values
and no session-field assignment happens — so a transient outage does not
clear the session reference. -/
theorem C9_error_preserves_session (findById : JsValue → LookupResult)
    (session : Session) (locals : Locals) (msg : String)
    (h : findById session.userId = LookupResult.error msg) :
    (anexarUtilizadorAsViews findById session locals).session.userId = session.userId ∧
    (anexarUtilizadorAsViews findById session locals).session.role = session.role ∧
    (anexarUtilizadorAsViews findById session locals).sessionWrites = 0 := by
  cases ht : truthy session.userId <;>
    simp [anexarUtilizadorAsViews, ht, h]

/-- Witness for C9: the failing store with the "U1" session. -/
theorem C9_error_preserves_session_witness :
    failingStore u1Session.userId = LookupResult.error "connection refused" ∧
    ((anexarUtilizadorAsViews failingStore u1Session noLocals).session.userId =
        u1Session.userId ∧
     (anexarUtilizadorAsViews failingStore u1Session noLocals).session.role =
        u1Session.role ∧
     (anexarUtilizadorAsViews failingStore u1Session noLocals).sessionWrites = 0) :=
  ⟨by decide, C9_error_preserves_session failingStore u1Session noLocals
    "connection refused" (by decide)⟩

/-- Claim C10: for every falsy identity reference (null, undefined,
false, 0, the empty string) the Gate redirects to "/login" exactly as
for an absent one, and the Enricher takes the anonymous path with no
store lookup — a falsy reference is never passed through. -/
theorem C10_falsy_reference_is_anonymous (findById : JsValue → LookupResult)
    (locals : Locals) (role : JsValue) (v : JsValue)
    (h : v = JsValue.vNull ∨ v = JsValue.vUndefined ∨ v = JsValue.vBool false ∨
         v = JsValue.vNum 0 ∨ v = JsValue.vStr "") :
    (exigirAutenticacao (Session.mk v role) locals).outcome =
      GateOutcome.redirect "/login" ∧
    (anexarUtilizadorAsViews findById (Session.mk v role) locals).storeReads = 0 ∧
    (anexarUtilizadorAsViews findById (Session.mk v role) locals).locals.currentUser =
      none := by
  rcases h with h | h | h | h | h <;> subst h <;>
    simp [exigirAutenticacao, anexarUtilizadorAsViews, truthy]

/-- Witness for C10: the empty-string reference. -/
theorem C10_falsy_reference_is_anonymous_witness :
    (JsValue.vStr "" = JsValue.vNull ∨ JsValue.vStr "" = JsValue.vUndefined ∨
     JsValue.vStr "" = JsValue.vBool false ∨ JsValue.vStr "" = JsValue.vNum 0 ∨
     JsValue.vStr "" = JsValue.vStr "") ∧
    ((exigirAutenticacao (Session.mk (JsValue.vStr "") JsValue.vUndefined)
        noLocals).outcome = GateOutcome.redirect "/login" ∧
     (anexarUtilizadorAsViews sampleStore
        (Session.mk (JsValue.vStr "") JsValue.vUndefined) noLocals).storeReads = 0 ∧
     (anexarUtilizadorAsViews sampleStore
        (Session.mk (JsValue.vStr "") JsValue.vUndefined) noLocals).locals.currentUser =
       none) :=
  ⟨Or.inr (Or.inr (Or.inr (Or.inr rfl))),
   C10_falsy_reference_is_anonymous sampleStore noLocals JsValue.vUndefined
     (JsValue.vStr "") (Or.inr (Or.inr (Or.inr (Or.inr rfl))))⟩
